import Mathlib

/-!
Verification of the incremental server-cache / backoff controller of
src/openstack_controller/datadog_checks/openstack_controller/openstack_controller.py
and the kube leader-election reporting mixin of
src/datadog_checks_base/datadog_checks/base/checks/kube_leader/mixins.py,
as a shallow embedding in Lean.

Python dicts are modelled as association lists with Python semantics
(assignment replaces in place, del removes the key, missing-key indexing
raises KeyError).  Python exceptions are modelled with Except.  Timestamps
are modelled as integers (seconds) or as opaque ISO strings where the code
only stores and forwards them.
-/

namespace Spec2Proof

/-- Python exceptions that the modelled code can raise. -/
inductive PyErr where
  | keyError
  | typeError
  | attributeError
  deriving DecidableEq, Repr

/-! ### Python dict model -/

/-- Python d.get(k) / d[k] lookup on an association list (first binding wins). -/
def dictGet {K V : Type} [DecidableEq K] : List (K × V) → K → Option V
  | [], _ => none
  | p :: m, k => if p.1 = k then some p.2 else dictGet m k

/-- Python `k in d` membership test. -/
def dictHas {K V : Type} [DecidableEq K] (m : List (K × V)) (k : K) : Bool :=
  (dictGet m k).isSome

/-- Python `d[k] = v` assignment: replace in place if present, append otherwise. -/
def dictSet {K V : Type} [DecidableEq K] : List (K × V) → K → V → List (K × V)
  | [], k, v => [(k, v)]
  | p :: m, k, v => if p.1 = k then (k, v) :: m else p :: dictSet m k v

/-- Python `del d[k]` on a key known to be present (the source always guards it). -/
def dictDel {K V : Type} [DecidableEq K] : List (K × V) → K → List (K × V)
  | [], _ => []
  | p :: m, k => if p.1 = k then dictDel m k else p :: dictDel m k

/-! ### OpenStack controller: data model

Raw server records are the JSON dicts returned by get_servers_detail; every
field is read with .get in the source, so each field is an Option (none
models an absent key).  Keys of the servers cache are server.get('id')
values, hence Option String. -/

/-- A raw flavor sub-dict of a server record (server.get('flavor', {})). -/
structure RawFlavor where
  id : Option String
  disk : Option Int
  vcpus : Option Int
  ram : Option Int
  ephemeral : Option Int
  swap : Option String
  deriving DecidableEq, Repr

/-- A raw server record as returned by the Nova servers/detail endpoint;
fields are those the source reads via .get. -/
structure RawServer where
  id : Option String
  status : Option String
  name : Option String
  hypervisor_hostname : Option String
  tenant_id : Option String
  availability_zone : Option String
  flavor : RawFlavor
  deriving DecidableEq, Repr

/-- create_flavor_object of openstack_controller.py: swap is 0 when the raw
value is the empty string, otherwise the raw value is kept.  We model the
swap slot with Strings (the quirk the source guards against is a string
swap field); an absent key stays absent. -/
structure FlavorObj where
  id : Option String
  disk : Option Int
  vcpus : Option Int
  ram : Option Int
  ephemeral : Option Int
  swap : Option String
  deriving DecidableEq, Repr

/-- create_flavor_object(flavor) of openstack_controller.py (lines 468-477). -/
def create_flavor_object (f : RawFlavor) : FlavorObj :=
  { id := f.id
    disk := f.disk
    vcpus := f.vcpus
    ram := f.ram
    ephemeral := f.ephemeral
    swap := if f.swap = some "" then some "0" else f.swap }

/-- The server metadata object built by create_server_object (lines 327-349).
flavor_id is set only when the raw flavor dict has an id key (pre-2.47 API);
flavor is set only when it has a disk key (2.47+ API). -/
structure ServerObj where
  server_id : Option String
  state : Option String
  server_name : Option String
  hypervisor_hostname : Option String
  tenant_id : Option String
  availability_zone : Option String
  project_name : Option String
  flavor_id : Option String
  flavor : Option FlavorObj
  deriving DecidableEq, Repr

/-- tenant_id-to-project-name mapping built in check() (lines 640-642):
keys are project.get('id') values, values are the project names (dict keys
of get_projects, which are project.get('name') values and may be None). -/
abbrev TenantMap := List (Option String × Option String)

/-- Python `tenant_to_name[k]`: indexing without a guard, raising KeyError
when the key is absent. -/
def tenantLookup : TenantMap → Option String → Except PyErr (Option String)
  | [], _ => .error .keyError
  | p :: m, k => if p.1 = k then .ok p.2 else tenantLookup m k

/-- Python truthiness of a project-name value: None and the empty string are
falsy, any other string is truthy. -/
def pyTruthy : Option String → Bool
  | none => false
  | some s => !(s == "")

/-- The pure part of create_server_object once the tenant lookup succeeded
with project name pname (lines 327-349). -/
def server_object (server : RawServer) (pname : Option String) : ServerObj :=
  { server_id := server.id
    state := server.status
    server_name := server.name
    hypervisor_hostname := server.hypervisor_hostname
    tenant_id := server.tenant_id
    availability_zone := server.availability_zone
    project_name := pname
    flavor_id := server.flavor.id
    flavor := if server.flavor.disk.isSome then some (create_flavor_object server.flavor) else none }

/-- create_server_object(server, tenant_to_name) of openstack_controller.py
(lines 327-349): indexes tenant_to_name with server.get('tenant_id'), which
raises KeyError when the tenant id is not a key. -/
def create_server_object (server : RawServer) (t2n : TenantMap) : Except PyErr ServerObj :=
  (tenantLookup t2n server.tenant_id).map (server_object server)

/-- The servers cache for one instance: server.get('id') keys to server
metadata objects, in Python dict insertion order. -/
abbrev Dict := List (Option String × ServerObj)

/-- The loop of update_servers_cache (lines 312-325): for each updated
server, insert-or-replace when its status is ACTIVE and its tenant maps to
a truthy name (the tenant indexing raises KeyError on a missing key), skip
when ACTIVE with a falsy tenant name, and delete the id if present for any
non-ACTIVE status. -/
def update_servers_cache_loop (t2n : TenantMap) (servers : Dict) :
    List RawServer → Except PyErr Dict
  | [] => .ok servers
  | u :: rest =>
    if u.status = some "ACTIVE" then
      match tenantLookup t2n u.tenant_id with
      | .error e => .error e
      | .ok pname =>
        if pyTruthy pname then
          match create_server_object u t2n with
          | .error e => .error e
          | .ok obj => update_servers_cache_loop t2n (dictSet servers u.id obj) rest
        else
          update_servers_cache_loop t2n servers rest
    else
      update_servers_cache_loop t2n
        (if dictHas servers u.id then dictDel servers u.id else servers) rest

/-- The query parameters the controller passes to get_servers_detail: a full
fetch filtered on status ACTIVE, or an incremental fetch with a
changes-since cursor. -/
inductive Query where
  | active
  | changedSince (since : String)
  deriving DecidableEq, Repr

/-- update_servers_cache(cached_servers, tenant_to_name, changes_since)
(lines 303-325): fetches the servers changed since the cursor (modelled by
the api oracle) and merges them into a copy of the cached snapshot. -/
def update_servers_cache (api : Query → List RawServer) (cached_servers : Dict)
    (t2n : TenantMap) (changes_since : String) : Except PyErr Dict :=
  update_servers_cache_loop t2n cached_servers (api (Query.changedSince changes_since))

/-- The dict comprehension of get_active_servers (lines 300-301): iterates
the fetched servers, keeps those whose tenant maps to a truthy name
(indexing raises KeyError on a missing tenant key), and builds the id-keyed
snapshot in iteration order. -/
def get_active_servers_fold (t2n : TenantMap) (acc : Dict) :
    List RawServer → Except PyErr Dict
  | [] => .ok acc
  | s :: rest =>
    match tenantLookup t2n s.tenant_id with
    | .error e => .error e
    | .ok pname =>
      if pyTruthy pname then
        match create_server_object s t2n with
        | .error e => .error e
        | .ok obj => get_active_servers_fold t2n (dictSet acc s.id obj) rest
      else get_active_servers_fold t2n acc rest

/-- get_active_servers(tenant_to_name) of openstack_controller.py
(lines 293-301); the fetched list is the api oracle's answer to the
status-ACTIVE query. -/
def get_active_servers (api : Query → List RawServer) (t2n : TenantMap) :
    Except PyErr Dict :=
  get_active_servers_fold t2n [] (api Query.active)

/-- One entry of self.servers_cache: the id-keyed snapshot plus the
changes-since cursor stored for the next poll. -/
structure CacheEntry where
  servers : Dict
  changes_since : String
  deriving DecidableEq, Repr

/-- get_all_servers(tenant_to_name, instance_name) of
openstack_controller.py (lines 353-367).  The single datetime.utcnow()
call of the method happens at its start, before any fetch; its value is the
now_iso argument.  The function returns the new cache entry for the
instance together with the query it issued to get_servers_detail (so that
theorems can speak about which cursor the fetch used). -/
def get_all_servers (api : Query → List RawServer) (now_iso : String)
    (entry : Option CacheEntry) (t2n : TenantMap) :
    Except PyErr (CacheEntry × Query) :=
  match entry with
  | none =>
    match get_active_servers api t2n with
    | .error e => .error e
    | .ok s => .ok (⟨s, now_iso⟩, Query.active)
  | some prev =>
    match update_servers_cache api prev.servers t2n prev.changes_since with
    | .error e => .error e
    | .ok s => .ok (⟨s, now_iso⟩, Query.changedSince prev.changes_since)

/-- The per-key effect of one fetched entity on the snapshot entry of key k,
used to characterise the merge loop: an ACTIVE entity with a truthy tenant
name overwrites, an ACTIVE entity with a falsy tenant name (or a failed
lookup, which in fact aborts the loop) leaves the entry, a non-ACTIVE
entity clears it, and entities with another id leave it. -/
def deltaStep (t2n : TenantMap) (k : Option String) (v : Option ServerObj)
    (u : RawServer) : Option ServerObj :=
  if u.id = k then
    if u.status = some "ACTIVE" then
      match tenantLookup t2n u.tenant_id with
      | .error _ => v
      | .ok pname => if pyTruthy pname then some (server_object u pname) else v
    else none
  else v

/-! ### Backoff controller

retry.py (class BackOffRetry) is not under src/; only its caller
openstack_controller.py is.  Its state and operations are modelled from the
spec (sections 3 and 4.3). -/

/-- Per-target backoff state (spec section 3, BackOffState). -/
structure BackOffState where
  retries : Nat
  next_run_allowed_at : Nat
  deriving DecidableEq, Repr

/-- Backoff state keyed by polling target identity. -/
abbrev BackOffMap := List (String × BackOffState)

/-- Growth constants of the capped exponential backoff (spec section 4.3:
interval = base * growth_factor ^ (retries - 1), capped at a ceiling). -/
structure BackOffConfig where
  base : Nat
  growth_factor : Nat
  cap : Nat
  deriving DecidableEq, Repr

/-- Modelled from the spec: BackOffRetry.should_run of the missing retry.py,
per section 4.3 — true if no backoff state exists for the target, or the
current time has reached next_run_allowed_at. -/
def should_run (m : BackOffMap) (t : String) (now : Nat) : Bool :=
  match dictGet m t with
  | none => true
  | some st => decide (st.next_run_allowed_at ≤ now)

/-- Modelled from the spec: BackOffRetry.do_backoff of the missing retry.py,
per section 4.3 — increments retries (creating state at retries = 1),
computes interval = base * growth_factor ^ (retries - 1) capped at the
ceiling, sets next_run_allowed_at = now + interval, and returns the new map
together with (interval, retries). -/
def do_backoff (cfg : BackOffConfig) (m : BackOffMap) (t : String) (now : Nat) :
    BackOffMap × Nat × Nat :=
  let retries := (match dictGet m t with | none => 0 | some st => st.retries) + 1
  let interval := min (cfg.base * cfg.growth_factor ^ (retries - 1)) cfg.cap
  (dictSet m t ⟨retries, now + interval⟩, interval, retries)

/-- Modelled from the spec: BackOffRetry.reset_backoff of the missing
retry.py, per section 4.3 — clears the backoff state for the target. -/
def reset_backoff (m : BackOffMap) (t : String) : BackOffMap := dictDel m t

/-- The terminal path a single run of OpenStackControllerCheck.check takes
(lines 581-695), abstracting the body to its outcome:
ok — the body completes; missing_keystone_url — IncompleteConfig raised at
line 590, before the try block, and propagated; incomplete_config — caught
at line 674, warning only; auth_needed — caught at line 684, api dropped;
http_error_below_500 — an HTTPError with status < 500, caught at line 687,
warning branch; connection_failure — an HTTPError with status >= 500, a
Timeout or a ConnectionError, caught at line 687, backoff branch. -/
inductive RunOutcome where
  | ok
  | missing_keystone_url
  | incomplete_config
  | auth_needed
  | http_error_below_500
  | connection_failure
  deriving DecidableEq, Repr

/-- The effect of one check run (lines 581-695) on the backoff map of its
target: a run skipped by should_run leaves the map; a connection_failure
run calls do_backoff and returns (line 692); a missing keystone url raises
out of the method before the try (line 590), leaving the map; every other
path — including the caught incomplete-config, authentication and
HTTP-below-500 failures — falls through to reset_backoff at line 695. -/
def check_backoff_transition (cfg : BackOffConfig) (m : BackOffMap) (t : String)
    (now : Nat) (o : RunOutcome) : BackOffMap :=
  if should_run m t now then
    match o with
    | .missing_keystone_url => m
    | .connection_failure => (do_backoff cfg m t now).1
    | _ => reset_backoff m t
  else m

/-! ### TTL-based aggregate cache -/

/-- One value of the hypervisor-to-aggregate map built by
get_all_aggregate_hypervisors (lines 204-219). -/
structure AggInfo where
  aggregate : Option String
  availability_zone : Option String
  deriving DecidableEq, Repr

/-- The aggregate list cache content (self._aggregate_list). -/
abbrev AggList := List (String × AggInfo)

/-- The TTL-cache state for aggregates: self._aggregate_list plus
self._last_aggregate_fetch_time (none models the attribute never having
been set, in which case getattr raises AttributeError). -/
structure AggCacheState where
  aggregate_list : AggList
  last_aggregate_fetch_time : Option Int
  deriving DecidableEq, Repr

/-- CACHE_TTL["aggregates"] (line 106). -/
def CACHE_TTL_aggregates : Int := 300

/-- _is_expired("aggregates") of openstack_controller.py (lines 706-710):
true when now - last_fetch_time exceeds the ttl; getattr raises
AttributeError when the fetch-time attribute was never set. -/
def is_expired_aggregates (st : AggCacheState) (now : Int) : Except PyErr Bool :=
  match st.last_aggregate_fetch_time with
  | none => .error .attributeError
  | some l => .ok (decide (now - l > CACHE_TTL_aggregates))

/-- _get_and_set_aggregate_list of openstack_controller.py (lines 712-717):
refetches (and resets the fetch time) when the cached aggregate list is
falsy — empty — or expired, short-circuiting so an empty cache never
consults the fetch time; otherwise returns the cached list unchanged.  The
fetched argument is the result of get_all_aggregate_hypervisors. -/
def get_and_set_aggregate_list (st : AggCacheState) (now : Int) (fetched : AggList) :
    Except PyErr (AggList × AggCacheState) :=
  if st.aggregate_list.isEmpty then .ok (fetched, ⟨fetched, some now⟩)
  else
    match is_expired_aggregates st now with
    | .error e => .error e
    | .ok true => .ok (fetched, ⟨fetched, some now⟩)
    | .ok false => .ok (st.aggregate_list, st)

/-- The re-initialization self._aggregate_list = {} that check() performs at
line 618 of every run, before any aggregate access of that run. -/
def check_run_reinit_aggregates (st : AggCacheState) : AggCacheState :=
  ⟨[], st.last_aggregate_fetch_time⟩

/-! ### Kube leader election -/

/-- AgentCheck.OK. -/
def AgentCheck_OK : Nat := 0
/-- AgentCheck.CRITICAL. -/
def AgentCheck_CRITICAL : Nat := 2

/-- Modelled from the spec: ElectionRecord of the missing
kube_leader/record.py, per spec sections 3 and 4.2 — the parsed fields of a
leader-election payload (absent or wrong-shaped raw fields parse to none)
together with the raw-presence flags of the two timestamp fields, which
the validation order needs to tell a missing timestamp from a malformed
one.  A present-but-unparsable timestamp has its presence flag true and its
parsed value none.  Timestamps are instants in seconds. -/
structure ElectionRecord where
  leader_name : Option String
  lease_duration : Option Int
  transitions : Option Int
  renew_time_present : Bool
  renew_time : Option Int
  acquire_time_present : Bool
  acquire_time : Option Int
  deriving DecidableEq, Repr

/-- Modelled from the spec: ElectionRecord.validate of the missing
kube_leader/record.py, with the check order of spec section 4.2 (leader
name, lease duration, renew time, acquire time presence, then the two
format checks, short-circuiting at the first failure).  The exact reason
strings are the ones asserted by
src/datadog_checks_base/tests/test_kube_leader.py (test_validation), the
repository's record of these user-facing strings; each carries the
"Invalid record: " prefix that the in-repo test pins. -/
def validate (r : ElectionRecord) : Bool × Option String :=
  if r.leader_name = none then
    (false, some "Invalid record: no current leader recorded")
  else if r.lease_duration = none then
    (false, some "Invalid record: no lease duration set")
  else if r.renew_time_present = false then
    (false, some "Invalid record: no renew time set")
  else if r.acquire_time_present = false then
    (false, some "Invalid record: no acquire time recorded")
  else if r.renew_time = none then
    (false, some "Invalid record: bad format for renewTime field")
  else if r.acquire_time = none then
    (false, some "Invalid record: bad format for acquireTime field")
  else (true, none)

/-- Modelled from the spec: the seconds_until_renew accessor of the missing
kube_leader/record.py, per spec section 4.2 — renew_time minus now, in
seconds; none when no renew time parsed (the reporting code only reads it
after validation passed). -/
def seconds_until_renew (r : ElectionRecord) (now : Int) : Option Int :=
  r.renew_time.map (fun t => t - now)

/-- The leader-status classification of _report_status, mixins.py lines
109-111: CRITICAL exactly when seconds_until_renew + lease_duration < 0,
OK otherwise.  The getD defaults are never exercised on records for which
validate returned true (both fields are then some). -/
def leader_status (r : ElectionRecord) (now : Int) : Nat :=
  if (seconds_until_renew r now).getD 0 + r.lease_duration.getD 0 < 0 then
    AgentCheck_CRITICAL
  else AgentCheck_OK

/-- The per-check configuration dict of the kube leader mixin;
metric_namespace models config.get("namespace", ...). -/
structure KubeConfig where
  record_kind : Option String
  record_name : Option String
  record_namespace : Option String
  metric_namespace : Option String
  tags : List String
  deriving DecidableEq, Repr

/-- A metric emission of the kube leader mixin. -/
inductive Emission where
  | service_check (name : String) (status : Nat) (message : Option String)
  | gauge (name : String) (value : Int)
  deriving DecidableEq, Repr

/-- _report_status(self, config, record) of mixins.py (lines 86-112), called
with both its arguments.  Its body first computes
prefix = config.get("namespace", self.NAMESPACE) — a str, since
self.NAMESPACE is initialised to the empty string at line 44 — and
immediately evaluates prefix.len() at line 89; Python str has no method
len, so every call raises AttributeError there, before any service check or
gauge is emitted.  The rest of the body (tag building, validation
reporting, and the lines 105-112 gauges and leader-status service check,
whose classification is modelled by leader_status) is unreachable. -/
def report_status (config : KubeConfig) (record : ElectionRecord) (now : Int) :
    Except PyErr (List Emission) :=
  .error .attributeError

/-- The call self._report_status(record) at mixins.py line 57: it passes a
single positional argument to a method declared as
_report_status(self, config, record), so Python raises TypeError at the
call site, before the method body (and its own prefix.len() failure,
modelled by report_status) can run. -/
def report_status_unary_call (record : ElectionRecord) (now : Int) :
    Except PyErr (List Emission) :=
  .error .typeError

/-- check_election_status(self, config) of mixins.py (lines 52-59): looks up
the election record (the lookup argument is the outcome of _get_record and
of the annotation parsing) and invokes self._report_status(record); any
exception of the try block is caught and turned into a single warning
(returned here as the list of caught exceptions).  Returns the emissions
made and the warnings logged. -/
def check_election_status (lookup : Except PyErr ElectionRecord)
    (config : KubeConfig) (now : Int) : List Emission × List PyErr :=
  match lookup with
  | .error e => ([], [e])
  | .ok record =>
    match report_status_unary_call record now with
    | .error e => ([], [e])
    | .ok ems => (ems, [])


/-! ### Dict lemmas -/

theorem dictGet_dictSet {K V : Type} [DecidableEq K] (m : List (K × V)) (k q : K) (v : V) :
    dictGet (dictSet m k v) q = if q = k then some v else dictGet m q := by
  induction m with
  | nil =>
    by_cases h : q = k
    · subst h; simp [dictGet, dictSet]
    · have h2 : ¬ k = q := fun hh => h hh.symm
      simp [dictGet, dictSet, h, h2]
  | cons p m ih =>
    by_cases hp : p.1 = k
    · subst hp
      by_cases h : q = p.1
      · subst h; simp [dictGet, dictSet]
      · have h2 : ¬ p.1 = q := fun hh => h hh.symm
        simp [dictGet, dictSet, h, h2]
    · by_cases hpq : p.1 = q
      · subst hpq
        simp [dictGet, dictSet, hp]
      · simp [dictGet, dictSet, hp, hpq, ih]

theorem dictGet_dictDel {K V : Type} [DecidableEq K] (m : List (K × V)) (k q : K) :
    dictGet (dictDel m k) q = if q = k then none else dictGet m q := by
  induction m with
  | nil => simp [dictGet, dictDel]
  | cons p m ih =>
    by_cases hp : p.1 = k
    · subst hp
      by_cases h : q = p.1
      · subst h; simp [dictDel, ih]
      · have h2 : ¬ p.1 = q := fun hh => h hh.symm
        simp [dictDel, dictGet, h, h2, ih]
    · by_cases hpq : p.1 = q
      · subst hpq
        simp [dictDel, dictGet, hp]
      · simp [dictDel, dictGet, hp, hpq, ih]

/-- del-if-present, as the source writes it at lines 323-324. -/
theorem dictGet_guardedDel {K V : Type} [DecidableEq K] (m : List (K × V)) (k q : K) :
    dictGet (if dictHas m k then dictDel m k else m) q
      = if q = k then none else dictGet m q := by
  by_cases h : dictHas m k = true
  · rw [if_pos h, dictGet_dictDel]
  · rw [if_neg h]
    by_cases hq : q = k
    · subst hq
      rw [if_pos rfl]
      unfold dictHas at h
      cases hg : dictGet m q
      · rfl
      · rw [hg] at h; simp at h
    · rw [if_neg hq]

/-! ### Merge-loop step lemmas -/

theorem tenantLookup_error (m : TenantMap) (k : Option String) :
    ∀ e, tenantLookup m k = .error e → e = PyErr.keyError := by
  induction m with
  | nil =>
    intro e h
    simp only [tenantLookup] at h
    injection h with h
    exact h.symm
  | cons p m ih =>
    intro e h
    simp only [tenantLookup] at h
    split at h
    · cases h
    · exact ih e h

theorem create_server_object_of_lookup (u : RawServer) (t2n : TenantMap)
    (pname : Option String) (h : tenantLookup t2n u.tenant_id = .ok pname) :
    create_server_object u t2n = .ok (server_object u pname) := by
  simp [create_server_object, h, Except.map]

theorem update_loop_nil (t2n : TenantMap) (s : Dict) :
    update_servers_cache_loop t2n s [] = .ok s := rfl

theorem update_loop_cons_active_truthy (t2n : TenantMap) (s : Dict) (u : RawServer)
    (rest : List RawServer) (pname : Option String)
    (hst : u.status = some "ACTIVE") (hlk : tenantLookup t2n u.tenant_id = .ok pname)
    (htr : pyTruthy pname = true) :
    update_servers_cache_loop t2n s (u :: rest)
      = update_servers_cache_loop t2n (dictSet s u.id (server_object u pname)) rest := by
  simp [update_servers_cache_loop, hst, hlk, htr,
    create_server_object_of_lookup u t2n pname hlk]

theorem update_loop_cons_active_falsy (t2n : TenantMap) (s : Dict) (u : RawServer)
    (rest : List RawServer) (pname : Option String)
    (hst : u.status = some "ACTIVE") (hlk : tenantLookup t2n u.tenant_id = .ok pname)
    (htr : pyTruthy pname = false) :
    update_servers_cache_loop t2n s (u :: rest)
      = update_servers_cache_loop t2n s rest := by
  simp [update_servers_cache_loop, hst, hlk, htr]

theorem update_loop_cons_active_err (t2n : TenantMap) (s : Dict) (u : RawServer)
    (rest : List RawServer) (e : PyErr)
    (hst : u.status = some "ACTIVE") (hlk : tenantLookup t2n u.tenant_id = .error e) :
    update_servers_cache_loop t2n s (u :: rest) = .error e := by
  simp [update_servers_cache_loop, hst, hlk]

theorem update_loop_cons_inactive (t2n : TenantMap) (s : Dict) (u : RawServer)
    (rest : List RawServer) (hst : ¬ u.status = some "ACTIVE") :
    update_servers_cache_loop t2n s (u :: rest)
      = update_servers_cache_loop t2n
          (if dictHas s u.id then dictDel s u.id else s) rest := by
  simp [update_servers_cache_loop, hst]

/-! ### Merge-loop characterisation -/

/-- The merge loop's per-key result is the left fold of deltaStep over the
fetched list, whenever the loop succeeds. -/
theorem update_loop_get (t2n : TenantMap) (k : Option String) (d : List RawServer) :
    ∀ (s s' : Dict), update_servers_cache_loop t2n s d = .ok s' →
      dictGet s' k = d.foldl (deltaStep t2n k) (dictGet s k) := by
  induction d with
  | nil =>
    intro s s' h
    rw [update_loop_nil] at h
    cases h
    simp
  | cons u rest ih =>
    intro s s' h
    rw [List.foldl_cons]
    by_cases hst : u.status = some "ACTIVE"
    · cases hlk : tenantLookup t2n u.tenant_id with
      | error e => rw [update_loop_cons_active_err t2n s u rest e hst hlk] at h; cases h
      | ok pname =>
        cases htr : pyTruthy pname with
        | true =>
          rw [update_loop_cons_active_truthy t2n s u rest pname hst hlk htr] at h
          rw [ih _ _ h, dictGet_dictSet]
          have hds : deltaStep t2n k (dictGet s k) u
              = if k = u.id then some (server_object u pname) else dictGet s k := by
            simp only [deltaStep, hst, hlk, htr]
            by_cases hk : u.id = k
            · subst hk; simp
            · have hk2 : ¬ k = u.id := fun hh => hk hh.symm
              simp [hk, hk2]
          rw [hds]
        | false =>
          rw [update_loop_cons_active_falsy t2n s u rest pname hst hlk htr] at h
          rw [ih _ _ h]
          congr 1
          simp only [deltaStep, hst, hlk, htr]
          by_cases hk : u.id = k <;> simp [hk]
    · rw [update_loop_cons_inactive t2n s u rest hst] at h
      rw [ih _ _ h]
      congr 1
      rw [dictGet_guardedDel]
      simp only [deltaStep, if_neg hst]
      by_cases hk : u.id = k
      · subst hk; simp
      · have hk2 : ¬ k = u.id := fun hh => hk hh.symm
        simp [hk, hk2]

/-- The merge loop's error behaviour does not depend on the starting
snapshot. -/
theorem update_loop_error_ext (t2n : TenantMap) (d : List RawServer) :
    ∀ (s s' : Dict) (e : PyErr), update_servers_cache_loop t2n s d = .error e →
      update_servers_cache_loop t2n s' d = .error e := by
  induction d with
  | nil =>
    intro s s' e h
    rw [update_loop_nil] at h
    cases h
  | cons u rest ih =>
    intro s s' e h
    by_cases hst : u.status = some "ACTIVE"
    · cases hlk : tenantLookup t2n u.tenant_id with
      | error e2 =>
        rw [update_loop_cons_active_err t2n s u rest e2 hst hlk] at h
        rw [update_loop_cons_active_err t2n s' u rest e2 hst hlk]
        exact h
      | ok pname =>
        cases htr : pyTruthy pname with
        | true =>
          rw [update_loop_cons_active_truthy t2n s u rest pname hst hlk htr] at h
          rw [update_loop_cons_active_truthy t2n s' u rest pname hst hlk htr]
          exact ih _ _ _ h
        | false =>
          rw [update_loop_cons_active_falsy t2n s u rest pname hst hlk htr] at h
          rw [update_loop_cons_active_falsy t2n s' u rest pname hst hlk htr]
          exact ih _ _ _ h
    · rw [update_loop_cons_inactive t2n s u rest hst] at h
      rw [update_loop_cons_inactive t2n s' u rest hst]
      exact ih _ _ _ h

/-- A fold of deltaStep over entities none of which carries the key acts as
the identity on that key's entry. -/
theorem foldl_deltaStep_of_not_mem (t2n : TenantMap) (k : Option String)
    (d : List RawServer) (h : ∀ u ∈ d, u.id ≠ k) :
    ∀ v, d.foldl (deltaStep t2n k) v = v := by
  induction d with
  | nil => intro v; rfl
  | cons u rest ih =>
    intro v
    have hu : u.id ≠ k := h u (List.mem_cons_self u rest)
    rw [List.foldl_cons]
    have hstep : deltaStep t2n k v u = v := by simp [deltaStep, hu]
    rw [hstep]
    exact ih (fun w hw => h w (List.mem_cons_of_mem u hw)) v

/-- Each deltaStep fold is a constant function or the identity, hence
idempotent. -/
theorem foldl_deltaStep_const_or_id (t2n : TenantMap) (k : Option String)
    (d : List RawServer) :
    (∀ v w, d.foldl (deltaStep t2n k) v = d.foldl (deltaStep t2n k) w) ∨
    (∀ v, d.foldl (deltaStep t2n k) v = v) := by
  induction d with
  | nil => right; intro v; rfl
  | cons u rest ih =>
    have idcase : (∀ v, deltaStep t2n k v u = v) →
        (∀ v w, (u :: rest).foldl (deltaStep t2n k) v
            = (u :: rest).foldl (deltaStep t2n k) w) ∨
        (∀ v, (u :: rest).foldl (deltaStep t2n k) v = v) := by
      intro hstep
      cases ih with
      | inl h =>
        left; intro v w
        rw [List.foldl_cons, List.foldl_cons, hstep, hstep]
        exact h v w
      | inr h =>
        right; intro v
        rw [List.foldl_cons, hstep]
        exact h v
    by_cases hid : u.id = k
    · by_cases hst : u.status = some "ACTIVE"
      · cases hlk : tenantLookup t2n u.tenant_id with
        | error e =>
          exact idcase (fun v => by simp [deltaStep, hid, hst, hlk])
        | ok pname =>
          cases htr : pyTruthy pname with
          | true =>
            left
            intro v w
            have hstep : ∀ v, deltaStep t2n k v u = some (server_object u pname) := by
              intro v; simp [deltaStep, hid, hst, hlk, htr]
            rw [List.foldl_cons, List.foldl_cons, hstep, hstep]
          | false =>
            exact idcase (fun v => by simp [deltaStep, hid, hst, hlk, htr])
      · left
        intro v w
        have hstep : ∀ v, deltaStep t2n k v u = none := by
          intro v; simp [deltaStep, hid, hst]
        rw [List.foldl_cons, List.foldl_cons, hstep, hstep]
    · exact idcase (fun v => by simp [deltaStep, hid])

theorem foldl_deltaStep_idem (t2n : TenantMap) (k : Option String)
    (d : List RawServer) (v : Option ServerObj) :
    d.foldl (deltaStep t2n k) (d.foldl (deltaStep t2n k) v)
      = d.foldl (deltaStep t2n k) v := by
  cases foldl_deltaStep_const_or_id t2n k d with
  | inl h => exact h _ _
  | inr h => exact h _

/-- With duplicate-free ids, the entry of a fetched entity's id after a
successful merge is exactly that entity's own deltaStep effect on the prior
entry. -/
theorem update_loop_get_mem (t2n : TenantMap) (d : List RawServer) (s s' : Dict)
    (hok : update_servers_cache_loop t2n s d = .ok s')
    (hnd : (d.map RawServer.id).Nodup) (u : RawServer) (hu : u ∈ d) :
    dictGet s' u.id = deltaStep t2n u.id (dictGet s u.id) u := by
  obtain ⟨d1, d2, rfl⟩ := List.append_of_mem hu
  rw [List.map_append, List.map_cons] at hnd
  have h2 : u.id ∉ d2.map RawServer.id :=
    (List.nodup_cons.mp (List.Nodup.of_append_right hnd)).1
  have h1 : u.id ∉ d1.map RawServer.id := by
    intro hmem
    exact List.disjoint_of_nodup_append hnd hmem (List.mem_cons_self _ _)
  have hw1 : ∀ w ∈ d1, w.id ≠ u.id := by
    intro w hw hh
    exact h1 (hh ▸ List.mem_map_of_mem RawServer.id hw)
  have hw2 : ∀ w ∈ d2, w.id ≠ u.id := by
    intro w hw hh
    exact h2 (hh ▸ List.mem_map_of_mem RawServer.id hw)
  rw [update_loop_get t2n u.id _ s s' hok, List.foldl_append, List.foldl_cons,
    foldl_deltaStep_of_not_mem t2n u.id d1 hw1]
  exact foldl_deltaStep_of_not_mem t2n u.id d2 hw2 _

/-- An ACTIVE fetched entity whose tenant id is not a key of the tenant map
makes the whole merge loop raise KeyError. -/
theorem update_loop_keyError (t2n : TenantMap) (d : List RawServer) :
    ∀ (s : Dict) (u : RawServer), u ∈ d → u.status = some "ACTIVE" →
      tenantLookup t2n u.tenant_id = .error PyErr.keyError →
      update_servers_cache_loop t2n s d = .error PyErr.keyError := by
  induction d with
  | nil => intro s u hu; cases hu
  | cons w rest ih =>
    intro s u hu hst hlk
    by_cases hw : w.status = some "ACTIVE"
    · cases hlw : tenantLookup t2n w.tenant_id with
      | error e =>
        rw [update_loop_cons_active_err t2n s w rest e hw hlw,
          tenantLookup_error t2n w.tenant_id e hlw]
      | ok pname =>
        have hur : u ∈ rest := by
          rcases List.mem_cons.mp hu with rfl | h
          · rw [hlw] at hlk; cases hlk
          · exact h
        cases htr : pyTruthy pname with
        | true =>
          rw [update_loop_cons_active_truthy t2n s w rest pname hw hlw htr]
          exact ih _ u hur hst hlk
        | false =>
          rw [update_loop_cons_active_falsy t2n s w rest pname hw hlw htr]
          exact ih _ u hur hst hlk
    · have hur : u ∈ rest := by
        rcases List.mem_cons.mp hu with rfl | h
        · exact absurd hst hw
        · exact h
      rw [update_loop_cons_inactive t2n s w rest hw]
      exact ih _ u hur hst hlk

/-- A fetched entity whose tenant id is not a key of the tenant map makes
the get_active_servers comprehension raise KeyError. -/
theorem get_active_fold_keyError (t2n : TenantMap) (servers : List RawServer) :
    ∀ (acc : Dict) (u : RawServer), u ∈ servers →
      tenantLookup t2n u.tenant_id = .error PyErr.keyError →
      get_active_servers_fold t2n acc servers = .error PyErr.keyError := by
  induction servers with
  | nil => intro acc u hu; cases hu
  | cons w rest ih =>
    intro acc u hu hlk
    cases hlw : tenantLookup t2n w.tenant_id with
    | error e =>
      have he : e = PyErr.keyError := tenantLookup_error t2n w.tenant_id e hlw
      subst he
      simp [get_active_servers_fold, hlw]
    | ok pname =>
      have hur : u ∈ rest := by
        rcases List.mem_cons.mp hu with rfl | h
        · rw [hlw] at hlk; cases hlk
        · exact h
      cases htr : pyTruthy pname with
      | true =>
        rw [show get_active_servers_fold t2n acc (w :: rest)
            = get_active_servers_fold t2n (dictSet acc w.id (server_object w pname)) rest by
          simp [get_active_servers_fold, hlw, htr,
            create_server_object_of_lookup w t2n pname hlw]]
        exact ih _ u hur hlk
      | false =>
        rw [show get_active_servers_fold t2n acc (w :: rest)
            = get_active_servers_fold t2n acc rest by
          simp [get_active_servers_fold, hlw, htr]]
        exact ih _ u hur hlk

/-! ### Claim C1 -/

/-- C1 (counterexample): the claim "each fetched entity whose reported
state is ACTIVE is inserted or replaced under its id" fails on the code: a
fetched ACTIVE server whose tenant maps to a falsy project name (here the
empty string) is skipped by the guard at line 319, so the merge of that
single entity into the empty snapshot returns the empty snapshot and the
entity's id is absent from the result. -/
theorem C1_counterexample :
    update_servers_cache
        (fun _ => [⟨some "a", some "ACTIVE", none, none, some "t1", none,
                    ⟨none, none, none, none, none, none⟩⟩])
        [] [(some "t1", some "")] "2019-01-01T00:00:00" = .ok []
    ∧ dictGet ([] : Dict) (some "a") = none := ⟨rfl, rfl⟩

/-- C1 (amended): in a successful incremental merge over a fetch list with
duplicate-free ids, a fetched ACTIVE entity whose tenant maps to a truthy
project name is inserted-or-replaced under its id; a fetched ACTIVE entity
whose tenant maps to a falsy name leaves its id's prior entry untouched;
a fetched entity with any other state is removed if present; and every key
not carried by any fetched entity keeps its prior entry (absence never
causes deletion). -/
theorem C1_theorem (api : Query → List RawServer) (s : Dict) (t2n : TenantMap)
    (cs : String) (s' : Dict)
    (hok : update_servers_cache api s t2n cs = .ok s')
    (hnd : ((api (Query.changedSince cs)).map RawServer.id).Nodup) :
    (∀ u ∈ api (Query.changedSince cs),
      (u.status = some "ACTIVE" →
        ∀ pname, tenantLookup t2n u.tenant_id = .ok pname →
          (pyTruthy pname = true → dictGet s' u.id = some (server_object u pname)) ∧
          (pyTruthy pname = false → dictGet s' u.id = dictGet s u.id)) ∧
      (u.status ≠ some "ACTIVE" → dictGet s' u.id = none)) ∧
    (∀ k, (∀ u ∈ api (Query.changedSince cs), u.id ≠ k) →
      dictGet s' k = dictGet s k) := by
  rw [update_servers_cache] at hok
  constructor
  · intro u hu
    have hmem := update_loop_get_mem t2n _ s s' hok hnd u hu
    constructor
    · intro hst pname hlk
      constructor
      · intro htr
        rw [hmem]
        simp [deltaStep, hst, hlk, htr]
      · intro htr
        rw [hmem]
        simp [deltaStep, hst, hlk, htr]
    · intro hst
      rw [hmem]
      simp [deltaStep, hst]
  · intro k hk
    rw [update_loop_get t2n k _ s s' hok,
      foldl_deltaStep_of_not_mem t2n k _ hk]

/-- C1 witness: one ACTIVE entity with a truthy tenant name is inserted. -/
theorem C1_witness :
    dictGet [(some "b",
        server_object
          ⟨some "b", some "ACTIVE", none, none, some "t2", none,
            ⟨none, none, none, none, none, none⟩⟩ (some "proj"))] (some "b")
      = some (server_object
          ⟨some "b", some "ACTIVE", none, none, some "t2", none,
            ⟨none, none, none, none, none, none⟩⟩ (some "proj")) :=
  (((C1_theorem
      (fun _ => [⟨some "b", some "ACTIVE", none, none, some "t2", none,
                  ⟨none, none, none, none, none, none⟩⟩])
      [] [(some "t2", some "proj")] "T"
      [(some "b",
        server_object
          ⟨some "b", some "ACTIVE", none, none, some "t2", none,
            ⟨none, none, none, none, none, none⟩⟩ (some "proj"))]
      rfl (by simp)).1
    ⟨some "b", some "ACTIVE", none, none, some "t2", none,
      ⟨none, none, none, none, none, none⟩⟩ (by simp)).1
    rfl (some "proj") rfl).1 rfl

/-! ### Claim C8 -/

/-- C8: applying the same incremental delta twice is idempotent — if the
first merge succeeds, the second merge of the same fetched list over the
first result succeeds and yields the same snapshot (equal as a map, which
is Python dict equality). -/
theorem C8_theorem (api : Query → List RawServer) (s : Dict) (t2n : TenantMap)
    (cs : String) (s1 : Dict)
    (hok : update_servers_cache api s t2n cs = .ok s1) :
    ∃ s2, update_servers_cache api s1 t2n cs = .ok s2 ∧
      ∀ k, dictGet s2 k = dictGet s1 k := by
  rw [update_servers_cache] at hok
  rw [update_servers_cache]
  cases h2 : update_servers_cache_loop t2n s1 (api (Query.changedSince cs)) with
  | error e =>
    have := update_loop_error_ext t2n _ s1 s e h2
    rw [hok] at this
    cases this
  | ok s2 =>
    refine ⟨s2, rfl, ?_⟩
    intro k
    rw [update_loop_get t2n k _ s1 s2 h2, update_loop_get t2n k _ s s1 hok]
    exact foldl_deltaStep_idem t2n k _ (dictGet s k)

/-- C8 witness at a concrete delta. -/
theorem C8_witness :
    ∃ s2, update_servers_cache
        (fun _ => [⟨some "b", some "ACTIVE", none, none, some "t2", none,
                    ⟨none, none, none, none, none, none⟩⟩])
        [(some "b",
          server_object
            ⟨some "b", some "ACTIVE", none, none, some "t2", none,
              ⟨none, none, none, none, none, none⟩⟩ (some "proj"))]
        [(some "t2", some "proj")] "T" = .ok s2 ∧
      ∀ k, dictGet s2 k
        = dictGet [(some "b",
            server_object
              ⟨some "b", some "ACTIVE", none, none, some "t2", none,
                ⟨none, none, none, none, none, none⟩⟩ (some "proj"))] k :=
  C8_theorem
    (fun _ => [⟨some "b", some "ACTIVE", none, none, some "t2", none,
                ⟨none, none, none, none, none, none⟩⟩])
    [] [(some "t2", some "proj")] "T"
    [(some "b",
      server_object
        ⟨some "b", some "ACTIVE", none, none, some "t2", none,
          ⟨none, none, none, none, none, none⟩⟩ (some "proj"))]
    rfl

/-! ### Claim C10 -/

/-- C10: a fetched ACTIVE entity whose tenant_id is not a key of
tenant_to_name makes update_servers_cache (and get_active_servers) raise
KeyError, aborting the whole merge, because tenant_to_name is indexed
without a guard. -/
theorem C10_theorem :
    (∀ (api : Query → List RawServer) (s : Dict) (t2n : TenantMap) (cs : String)
        (u : RawServer),
      u ∈ api (Query.changedSince cs) → u.status = some "ACTIVE" →
      tenantLookup t2n u.tenant_id = .error PyErr.keyError →
      update_servers_cache api s t2n cs = .error PyErr.keyError) ∧
    (∀ (api : Query → List RawServer) (t2n : TenantMap) (u : RawServer),
      u ∈ api Query.active → u.status = some "ACTIVE" →
      tenantLookup t2n u.tenant_id = .error PyErr.keyError →
      get_active_servers api t2n = .error PyErr.keyError) := by
  constructor
  · intro api s t2n cs u hu hst hlk
    rw [update_servers_cache]
    exact update_loop_keyError t2n _ s u hu hst hlk
  · intro api t2n u hu hst hlk
    rw [get_active_servers]
    exact get_active_fold_keyError t2n _ [] u hu hlk

/-- C10 witness: a single ACTIVE entity with an unmapped tenant id aborts
both entry points with KeyError. -/
theorem C10_witness :
    update_servers_cache
        (fun _ => [⟨some "c", some "ACTIVE", none, none, some "missing", none,
                    ⟨none, none, none, none, none, none⟩⟩])
        [] [] "T" = .error PyErr.keyError ∧
    get_active_servers
        (fun _ => [⟨some "c", some "ACTIVE", none, none, some "missing", none,
                    ⟨none, none, none, none, none, none⟩⟩])
        [] = .error PyErr.keyError :=
  ⟨C10_theorem.1 _ [] [] "T"
      ⟨some "c", some "ACTIVE", none, none, some "missing", none,
        ⟨none, none, none, none, none, none⟩⟩ (by simp) rfl rfl,
   C10_theorem.2 _ []
      ⟨some "c", some "ACTIVE", none, none, some "missing", none,
        ⟨none, none, none, none, none, none⟩⟩ (by simp) rfl rfl⟩

/-! ### Claim C6 -/

/-- C6: get_all_servers issues the changed-entities fetch with the
changes_since cursor stored by the previous poll (and the full ACTIVE fetch
when no prior snapshot exists), and on success stores as the new
changes_since exactly the timestamp captured at the start of the method,
before the fetch — the single utcnow() call of the method (line 356). -/
theorem C6_theorem (api : Query → List RawServer) (now_iso : String)
    (entry : Option CacheEntry) (t2n : TenantMap) (out : CacheEntry × Query)
    (h : get_all_servers api now_iso entry t2n = .ok out) :
    out.1.changes_since = now_iso ∧
    out.2 = (match entry with
             | none => Query.active
             | some prev => Query.changedSince prev.changes_since) := by
  cases entry with
  | none =>
    simp only [get_all_servers] at h
    split at h
    · cases h
    · cases h
      exact ⟨rfl, rfl⟩
  | some prev =>
    simp only [get_all_servers] at h
    split at h
    · cases h
    · cases h
      exact ⟨rfl, rfl⟩

/-- C6 witness: a first poll stores the start-of-method timestamp and used
the full ACTIVE query. -/
theorem C6_witness :
    ((⟨[], "T0"⟩ : CacheEntry), Query.active).1.changes_since = "T0" ∧
    ((⟨[], "T0"⟩ : CacheEntry), Query.active).2 = Query.active :=
  C6_theorem (fun _ => []) "T0" none [] (⟨[], "T0"⟩, Query.active) rfl

/-! ### Claim C3 -/

/-- C3 (counterexample): a failed run does not always increment the backoff
state.  With backoff state at retries = 2 and should_run true, a run that
fails with an HTTP error below 500 (caught at line 687, warning branch)
falls through to reset_backoff at line 695: the state is removed instead of
being incremented to retries = 3. -/
theorem C3_counterexample :
    should_run [("i", (⟨2, 50⟩ : BackOffState))] "i" 100 = true ∧
    check_backoff_transition ⟨2, 2, 64⟩ [("i", ⟨2, 50⟩)] "i" 100
        RunOutcome.http_error_below_500 = [] ∧
    dictGet (check_backoff_transition ⟨2, 2, 64⟩ [("i", ⟨2, 50⟩)] "i" 100
        RunOutcome.http_error_below_500) "i" = none := ⟨rfl, rfl, rfl⟩

/-- C3 (amended): across check runs, the backoff state of a target is
created at retries = 1 on the first connection-level failure, incremented
by one on each subsequent connection-level failure (HTTP >= 500, timeout or
connection error), and removed on any run that ends at line 695 — which is
every successful run, but also runs failing with an HTTP error below 500,
an incomplete configuration or an authentication error; a missing keystone
url raises before the try block and leaves the state unchanged, as does a
run skipped by should_run. -/
theorem C3_theorem (cfg : BackOffConfig) (m : BackOffMap) (t : String)
    (now : Nat) (o : RunOutcome) :
    (should_run m t now = false → check_backoff_transition cfg m t now o = m) ∧
    (should_run m t now = true →
      (o = RunOutcome.connection_failure → dictGet m t = none →
        dictGet (check_backoff_transition cfg m t now o) t
          = some ⟨1, now + min (cfg.base * cfg.growth_factor ^ (1 - 1)) cfg.cap⟩) ∧
      (o = RunOutcome.connection_failure → ∀ st, dictGet m t = some st →
        dictGet (check_backoff_transition cfg m t now o) t
          = some ⟨st.retries + 1,
              now + min (cfg.base * cfg.growth_factor ^ (st.retries + 1 - 1)) cfg.cap⟩) ∧
      ((o = RunOutcome.ok ∨ o = RunOutcome.incomplete_config ∨
        o = RunOutcome.auth_needed ∨ o = RunOutcome.http_error_below_500) →
        dictGet (check_backoff_transition cfg m t now o) t = none) ∧
      (o = RunOutcome.missing_keystone_url →
        check_backoff_transition cfg m t now o = m)) := by
  constructor
  · intro h
    simp [check_backoff_transition, h]
  · intro h
    refine ⟨?_, ?_, ?_, ?_⟩
    · intro ho hnone
      subst ho
      simp [check_backoff_transition, h, do_backoff, hnone, dictGet_dictSet]
    · intro ho st hsome
      subst ho
      simp [check_backoff_transition, h, do_backoff, hsome, dictGet_dictSet]
    · intro ho
      rcases ho with rfl | rfl | rfl | rfl <;>
        simp [check_backoff_transition, h, reset_backoff, dictGet_dictDel]
    · intro ho
      subst ho
      simp [check_backoff_transition, h]

/-- C3 witness: first connection failure creates state at retries = 1. -/
theorem C3_witness :
    dictGet (check_backoff_transition ⟨2, 2, 64⟩ [] "i" 5
        RunOutcome.connection_failure) "i"
      = some ⟨1, 5 + min (2 * 2 ^ (1 - 1)) 64⟩ :=
  ((C3_theorem ⟨2, 2, 64⟩ [] "i" 5 RunOutcome.connection_failure).2 rfl).1 rfl rfl

/-! ### Claim C9 -/

/-- C9 (counterexample): a cached value is not reused whenever
now - last_fetch_time <= ttl.  A run starts by re-initialising
self._aggregate_list to empty (check(), line 618), so the first aggregate
access of the next run refetches even though only 10 of the 300 ttl
seconds have passed since the previous fetch: the result is the freshly
fetched list with the fetch timestamp reset, not the cached one. -/
theorem C9_counterexample :
    (10 : Int) - 0 ≤ CACHE_TTL_aggregates ∧
    get_and_set_aggregate_list
        (check_run_reinit_aggregates ⟨[("h1", ⟨some "agg", none⟩)], some 0⟩)
        10 [("h2", ⟨some "agg2", none⟩)]
      = .ok ([("h2", ⟨some "agg2", none⟩)],
             ⟨[("h2", ⟨some "agg2", none⟩)], some 10⟩) ∧
    ([("h2", (⟨some "agg2", none⟩ : AggInfo))] : AggList)
      ≠ [("h1", ⟨some "agg", none⟩)] := by
  refine ⟨by decide, rfl, by decide⟩

/-- C9 (amended): within one run, a nonempty cached aggregate list is
reused exactly while now - last_fetch_time <= ttl and is refetched with the
timestamp reset once now - last_fetch_time > ttl; but an empty cached list
is unconditionally refetched, and since check() re-initialises the cache to
empty at the start of every run, the first aggregate access of each run
always refetches regardless of the ttl. -/
theorem C9_theorem (st : AggCacheState) (now : Int) (fetched : AggList) :
    (st.aggregate_list ≠ [] → ∀ l, st.last_aggregate_fetch_time = some l →
      (now - l ≤ CACHE_TTL_aggregates →
        get_and_set_aggregate_list st now fetched = .ok (st.aggregate_list, st)) ∧
      (now - l > CACHE_TTL_aggregates →
        get_and_set_aggregate_list st now fetched
          = .ok (fetched, ⟨fetched, some now⟩))) ∧
    (st.aggregate_list = [] →
      get_and_set_aggregate_list st now fetched
        = .ok (fetched, ⟨fetched, some now⟩)) ∧
    (get_and_set_aggregate_list (check_run_reinit_aggregates st) now fetched
      = .ok (fetched, ⟨fetched, some now⟩)) := by
  refine ⟨?_, ?_, ?_⟩
  · intro hne l hl
    have hie : st.aggregate_list.isEmpty = false := by
      cases hAl : st.aggregate_list with
      | nil => exact absurd hAl hne
      | cons a as => rfl
    constructor
    · intro hle
      have hd : decide (now - l > CACHE_TTL_aggregates) = false := by
        simp only [decide_eq_false_iff_not]
        exact not_lt.mpr hle
      simp [get_and_set_aggregate_list, hie, is_expired_aggregates, hl, hd]
    · intro hgt
      have hd : decide (now - l > CACHE_TTL_aggregates) = true := by
        simpa using hgt
      simp [get_and_set_aggregate_list, hie, is_expired_aggregates, hl, hd]
  · intro he
    simp [get_and_set_aggregate_list, he]
  · simp [get_and_set_aggregate_list, check_run_reinit_aggregates]

/-- C9 witness: a nonempty cache within the ttl is reused. -/
theorem C9_witness :
    get_and_set_aggregate_list ⟨[("h", ⟨none, none⟩)], some 0⟩ 10
        [("h2", ⟨none, none⟩)]
      = .ok ([("h", ⟨none, none⟩)], ⟨[("h", ⟨none, none⟩)], some 0⟩) :=
  ((C9_theorem ⟨[("h", ⟨none, none⟩)], some 0⟩ 10 [("h2", ⟨none, none⟩)]).1
    (by decide) 0 rfl).1 (by decide)

/-! ### Claim C2 -/

/-- C2: for every config whose election-record lookup succeeds,
check_election_status emits no service check and no gauge: the call
self._report_status(record) at line 57 passes one positional argument to a
method requiring two, so it raises TypeError, which the surrounding except
clause catches, leaving only a logged warning. -/
theorem C2_theorem (config : KubeConfig) (record : ElectionRecord) (now : Int) :
    check_election_status (.ok record) config now = ([], [PyErr.typeError]) := rfl

/-! ### Claim C7 -/

/-- C7: the code cannot report the claimed status.  _report_status, even
when called with both arguments, raises AttributeError at prefix.len()
(line 89) before emitting anything — here evaluated on a record that passes
validation — while the classification expression of its dead code at lines
109-111 (leader_status) is CRITICAL exactly when
seconds_until_renew + lease_duration < 0 and OK otherwise, as evaluated on
an expired and on a fresh record. -/
theorem C7_theorem :
    report_status ⟨none, none, none, some "kube", []⟩
        ⟨some "me", some 30, some 1, true, some 1000, true, some 900⟩ 100
      = .error PyErr.attributeError ∧
    validate ⟨some "me", some 30, some 1, true, some 1000, true, some 900⟩
      = (true, none) ∧
    leader_status ⟨some "me", some 30, some 1, true, some 0, true, some 0⟩ 1000
      = AgentCheck_CRITICAL ∧
    leader_status ⟨some "me", some 30, some 1, true, some 1000, true, some 900⟩ 100
      = AgentCheck_OK := by
  refine ⟨rfl, rfl, by decide, by decide⟩

/-! ### Claim C4 -/

/-- C4: validate checks field presence in the exact order leader name,
lease duration, renew time, acquire time, then the renewTime and
acquireTime format checks, short-circuiting at the first failure; in
particular a record missing both the lease-duration and the renew-time
fields never yields the renew-time reason, and yields the lease-duration
reason whenever the earlier leader-name check passed. -/
theorem C4_theorem (r : ElectionRecord) :
    (r.leader_name = none →
      validate r = (false, some "Invalid record: no current leader recorded")) ∧
    (r.leader_name ≠ none → r.lease_duration = none →
      validate r = (false, some "Invalid record: no lease duration set")) ∧
    (r.leader_name ≠ none → r.lease_duration ≠ none →
      r.renew_time_present = false →
      validate r = (false, some "Invalid record: no renew time set")) ∧
    (r.leader_name ≠ none → r.lease_duration ≠ none →
      r.renew_time_present = true → r.acquire_time_present = false →
      validate r = (false, some "Invalid record: no acquire time recorded")) ∧
    (r.leader_name ≠ none → r.lease_duration ≠ none →
      r.renew_time_present = true → r.acquire_time_present = true →
      r.renew_time = none →
      validate r = (false, some "Invalid record: bad format for renewTime field")) ∧
    (r.leader_name ≠ none → r.lease_duration ≠ none →
      r.renew_time_present = true → r.acquire_time_present = true →
      r.renew_time ≠ none → r.acquire_time = none →
      validate r = (false, some "Invalid record: bad format for acquireTime field")) ∧
    (r.leader_name ≠ none → r.lease_duration ≠ none →
      r.renew_time_present = true → r.acquire_time_present = true →
      r.renew_time ≠ none → r.acquire_time ≠ none →
      validate r = (true, none)) ∧
    (r.lease_duration = none → r.renew_time_present = false →
      (validate r).2 ≠ some "Invalid record: no renew time set" ∧
      (r.leader_name ≠ none →
        validate r = (false, some "Invalid record: no lease duration set"))) := by
  refine ⟨?_, ?_, ?_, ?_, ?_, ?_, ?_, ?_⟩
  · intro h1; simp [validate, h1]
  · intro h1 h2; simp [validate, h1, h2]
  · intro h1 h2 h3; simp [validate, h1, h2, h3]
  · intro h1 h2 h3 h4; simp [validate, h1, h2, h3, h4]
  · intro h1 h2 h3 h4 h5; simp [validate, h1, h2, h3, h4, h5]
  · intro h1 h2 h3 h4 h5 h6; simp [validate, h1, h2, h3, h4, h5, h6]
  · intro h1 h2 h3 h4 h5 h6; simp [validate, h1, h2, h3, h4, h5, h6]
  · intro hld hrp
    by_cases hl : r.leader_name = none
    · exact ⟨by simp [validate, hl], fun hl2 => absurd hl hl2⟩
    · exact ⟨by simp [validate, hl, hld], fun _ => by simp [validate, hl, hld]⟩

/-- C4 witness: a record missing both lease duration and renew time (with a
leader recorded) yields the lease-duration reason. -/
theorem C4_witness :
    validate ⟨some "me", none, none, false, none, false, none⟩
      = (false, some "Invalid record: no lease duration set") :=
  ((C4_theorem ⟨some "me", none, none, false, none, false, none⟩).2.2.2.2.2.2.2
    rfl rfl).2 (by decide)

/-! ### Claim C5 -/

/-- C5 (counterexample): on a raw input lacking holderIdentity, validate
returns false but the reason is "Invalid record: no current leader
recorded" — the exact string pinned by test_kube_leader.py — not the bare
"no current leader recorded" the claim requires verbatim. -/
theorem C5_counterexample :
    validate ⟨none, some 30, none, true, some 0, true, some 0⟩
      = (false, some "Invalid record: no current leader recorded") ∧
    (validate ⟨none, some 30, none, true, some 0, true, some 0⟩).2
      ≠ some "no current leader recorded" := by
  refine ⟨rfl, by decide⟩

/-- C5 (amended): for every record whose raw payload lacks holderIdentity,
validate returns valid = false with the reason string exactly
"Invalid record: no current leader recorded". -/
theorem C5_theorem (r : ElectionRecord) (h : r.leader_name = none) :
    validate r = (false, some "Invalid record: no current leader recorded") := by
  simp [validate, h]

/-- C5 witness. -/
theorem C5_witness :
    validate ⟨none, none, none, false, none, false, none⟩
      = (false, some "Invalid record: no current leader recorded") :=
  C5_theorem ⟨none, none, none, false, none, false, none⟩ rfl

end Spec2Proof
